import Mathlib

/-!
Verification development for the retrieval-augmented book summarizer
(src/summarization_v1.py).  The pipeline logic of the class
HeadwayStyleBookSummarizer is shallowly embedded here:

* external services (embedding provider, vector search client, generation
  provider) are modelled as oracle functions returning Except values, so a
  raised exception of the Python call corresponds to Except.error;
* the Python dict accumulated by retrieve_documents is modelled as an
  insertion-ordered association list with the update-in-place semantics of
  Python dicts;
* embedding vectors are opaque to the pipeline (only their emptiness is
  ever inspected), so the numeric float contents are modelled as List Int;
* the fixed instructional text blocks of the prompt f-string are
  abbreviated to their opening words, while every interpolated expression
  of the f-string appears in source order.
-/

/-- Mirrors the dataclass BookMetadata (source lines 28-35). -/
structure BookMetadata where
  title : String
  author : String
  filename : String
  publisher : String := ""
  published_date : String := ""
  description : String := ""
  deriving DecidableEq

/-- An embedding vector.  The pipeline never inspects the numeric values,
only whether the vector is empty, so the scalar type is immaterial. -/
abbrev EmbeddingVector := List Int

/-- The embedding provider boundary: openai_client.embeddings.create.
Except.error models a raised exception. -/
abbrev EmbedOracle := String → Except String EmbeddingVector

/-- One record returned by the vector search client.  The select clause
requests only the textual "chunk" field, which a record may lack; this is
modelled by an Option field. -/
structure SearchRecord where
  chunk : Option String
  deriving DecidableEq

/-- The vector search boundary: search_client.search, abstracted over the
query vector, the k_nearest_neighbors count and the result cap (top).
Except.error models a raised exception. -/
abbrev SearchOracle := EmbeddingVector → Nat → Nat → Except String (List SearchRecord)

/-- The generation provider boundary: chat.completions.create on the
assembled prompt.  Except.error models a raised exception carrying str(e). -/
abbrev GenOracle := String → Except String String

/-- The result mapping of retrieve_documents: a Python dict from query
strings to chunk lists, modelled as an insertion-ordered association list. -/
abbrev Dict := List (String × List String)

/-- Keys of the dict, in insertion order (Python dict iteration order). -/
def dictKeys (d : Dict) : List String := d.map Prod.fst

/-- Python dict assignment d[k] = v: update in place if the key is present
(keeping its position), otherwise append the new binding at the end. -/
def dictInsert (d : Dict) (k : String) (v : List String) : Dict :=
  if d.any (fun p => p.1 == k) then d.map (fun p => if p.1 == k then (k, v) else p)
  else d ++ [(k, v)]

/-- Python dict read access d.get(k): the value of the first (unique)
binding of k, if any. -/
def dictLookup (d : Dict) (k : String) : Option (List String) :=
  (d.find? (fun p => p.1 == k)).map Prod.snd

/-- Mirrors HeadwayStyleBookSummarizer.generate_embedding (lines 141-147):
the provider call is wrapped in try/except and a raised exception is
converted to the empty vector. -/
def generate_embedding (e : EmbedOracle) (text : String) : EmbeddingVector :=
  match e text with
  | Except.ok v => v
  | Except.error _ => []

/-- Mirrors generate_retrieval_queries (lines 149-158): ten query strings
built from title and author, passed through list(set(...)), i.e.
deduplicated with order immaterial. -/
def generate_retrieval_queries (book_metadata : BookMetadata) : List String :=
  let book_title := book_metadata.title
  let author := book_metadata.author
  let queries := [book_title, book_title ++ " summary", book_title ++ " key concepts",
    book_title ++ " main ideas", author, author ++ " " ++ book_title,
    "key takeaways " ++ book_title, "actionable advice " ++ book_title,
    "lessons from " ++ book_title, "principles " ++ book_title]
  queries.dedup

/-- One iteration of the retrieve_documents loop (lines 166-181) acting on
the accumulated dict: embed the query; if the embedding is empty, continue
without recording anything; otherwise search with k_nearest_neighbors=50
and top=max_docs_per_query, keep the "chunk" field of the records that
have it, and record the list; a search exception records the empty list. -/
def retrieveStep (e : EmbedOracle) (s : SearchOracle) (max_docs_per_query : Nat)
    (all_documents : Dict) (query : String) : Dict :=
  let query_embedding := generate_embedding e query
  if query_embedding.isEmpty then all_documents
  else
    match s query_embedding 50 max_docs_per_query with
    | Except.ok results => dictInsert all_documents query (results.filterMap SearchRecord.chunk)
    | Except.error _ => dictInsert all_documents query []

/-- Mirrors retrieve_documents (lines 160-183): fold the per-query step
over the queries, starting from the empty dict.  The progress bar and the
time.sleep(0.2) pacing call do not affect the result value; the pacing is
modelled separately by retrieveTrace. -/
def retrieve_documents (e : EmbedOracle) (s : SearchOracle)
    (queries : List String) (max_docs_per_query : Nat) : Dict :=
  queries.foldl (retrieveStep e s max_docs_per_query) []

/-- retrieve_documents with its default argument max_docs_per_query=100
(line 160), as invoked by the UI at line 549. -/
def retrieve_documents_default (e : EmbedOracle) (s : SearchOracle)
    (queries : List String) : Dict :=
  retrieve_documents e s queries 100

/-- The outcome recorded for a single query by retrieveStep, in isolation:
none when the embedding came back empty (the query is skipped), otherwise
the chunk list of a successful search, or the empty list on a search
exception. -/
def queryResult (e : EmbedOracle) (s : SearchOracle) (max_docs_per_query : Nat)
    (query : String) : Option (List String) :=
  let query_embedding := generate_embedding e query
  if query_embedding.isEmpty then none
  else
    match s query_embedding 50 max_docs_per_query with
    | Except.ok results => some (results.filterMap SearchRecord.chunk)
    | Except.error _ => some []

/-- Observable events of one retrieve_documents run, for the temporal
pacing property: the embedding call, the search call and the
time.sleep(0.2) pacing delay. -/
inductive RetrievalEvent where
  | embedCall (query : String)
  | searchCall (query : String)
  | sleepCall
  deriving DecidableEq

/-- The events emitted while processing one query, in source order of
lines 166-181: the embedding call always happens; the search call happens
when the embedding is non-empty; the pacing delay happens only after a
successful search (the continue of line 170 and the except branch of line
179 both skip the sleep of line 178). -/
def retrieveEventsFor (e : EmbedOracle) (s : SearchOracle) (max_docs_per_query : Nat)
    (query : String) : List RetrievalEvent :=
  let query_embedding := generate_embedding e query
  if query_embedding.isEmpty then [RetrievalEvent.embedCall query]
  else
    match s query_embedding 50 max_docs_per_query with
    | Except.ok _ => [RetrievalEvent.embedCall query, RetrievalEvent.searchCall query,
        RetrievalEvent.sleepCall]
    | Except.error _ => [RetrievalEvent.embedCall query, RetrievalEvent.searchCall query]

/-- The full event trace of retrieve_documents over its query list. -/
def retrieveTrace (e : EmbedOracle) (s : SearchOracle) (max_docs_per_query : Nat)
    (queries : List String) : List RetrievalEvent :=
  queries.foldl (fun acc q => acc ++ retrieveEventsFor e s max_docs_per_query q) []

/-- The ten language-specific callout titles of one entry of the
callout_translations dict (lines 194-303). -/
structure CalloutTable where
  did_you_know : String
  try_this : String
  heres_the_thing : String
  remember : String
  lets_be_honest : String
  the_bottom_line : String
  sound_familiar : String
  key_takeaway : String
  think_about_it : String
  the_truth_is : String
  deriving DecidableEq

/-- The "English" entry of callout_translations (lines 195-206). -/
def englishCallouts : CalloutTable :=
  { did_you_know := "Did you know?"
    try_this := "Try this:"
    heres_the_thing := "Here\x27s the thing:"
    remember := "Remember:"
    lets_be_honest := "Let\x27s be honest:"
    the_bottom_line := "The bottom line:"
    sound_familiar := "Sound familiar?"
    key_takeaway := "Key takeaway:"
    think_about_it := "Think about it:"
    the_truth_is := "The truth is:" }

/-- The callout_translations dict of generate_headway_style_summary
(lines 194-303), as an insertion-ordered association list. -/
def callout_translations : List (String × CalloutTable) :=
  [("English", englishCallouts),
   ("Spanish",
    { did_you_know := "¿Sabías que?"
      try_this := "Prueba esto:"
      heres_the_thing := "Esto es lo importante:"
      remember := "Recuerda:"
      lets_be_honest := "Seamos honestos:"
      the_bottom_line := "En resumen:"
      sound_familiar := "¿Te suena familiar?"
      key_takeaway := "Punto clave:"
      think_about_it := "Piénsalo:"
      the_truth_is := "La verdad es:" }),
   ("French",
    { did_you_know := "Le saviez-vous?"
      try_this := "Essayez ceci:"
      heres_the_thing := "Voici la chose:"
      remember := "Rappelez-vous:"
      lets_be_honest := "Soyons honnêtes:"
      the_bottom_line := "L\x27essentiel:"
      sound_familiar := "Ça vous dit quelque chose?"
      key_takeaway := "Point clé:"
      think_about_it := "Pensez-y:"
      the_truth_is := "La vérité est:" }),
   ("Turkish",
    { did_you_know := "Biliyor muydunuz?"
      try_this := "Bunu deneyin:"
      heres_the_thing := "Şöyle bir şey var:"
      remember := "Unutmayın:"
      lets_be_honest := "Açıkçası:"
      the_bottom_line := "Özetle:"
      sound_familiar := "Tanıdık geliyor mu?"
      key_takeaway := "Önemli nokta:"
      think_about_it := "Bir düşünün:"
      the_truth_is := "Gerçek şu ki:" }),
   ("German",
    { did_you_know := "Wussten Sie?"
      try_this := "Versuchen Sie dies:"
      heres_the_thing := "Die Sache ist:"
      remember := "Denken Sie daran:"
      lets_be_honest := "Seien wir ehrlich:"
      the_bottom_line := "Unterm Strich:"
      sound_familiar := "Kommt Ihnen bekannt vor?"
      key_takeaway := "Wichtigster Punkt:"
      think_about_it := "Denken Sie darüber nach:"
      the_truth_is := "Die Wahrheit ist:" }),
   ("Italian",
    { did_you_know := "Lo sapevi?"
      try_this := "Prova questo:"
      heres_the_thing := "Ecco il punto:"
      remember := "Ricorda:"
      lets_be_honest := "Siamo onesti:"
      the_bottom_line := "In sintesi:"
      sound_familiar := "Ti suona familiare?"
      key_takeaway := "Punto chiave:"
      think_about_it := "Pensaci:"
      the_truth_is := "La verità è:" }),
   ("Portuguese",
    { did_you_know := "Você sabia?"
      try_this := "Tente isto:"
      heres_the_thing := "A questão é:"
      remember := "Lembre-se:"
      lets_be_honest := "Sejamos honestos:"
      the_bottom_line := "Resumindo:"
      sound_familiar := "Parece familiar?"
      key_takeaway := "Ponto chave:"
      think_about_it := "Pense nisso:"
      the_truth_is := "A verdade é:" }),
   ("Chinese",
    { did_you_know := "你知道吗？"
      try_this := "试试这个："
      heres_the_thing := "事情是这样的："
      remember := "记住："
      lets_be_honest := "说实话："
      the_bottom_line := "重点是："
      sound_familiar := "听起来熟悉吗？"
      key_takeaway := "关键要点："
      think_about_it := "想想看："
      the_truth_is := "事实是：" }),
   ("Japanese",
    { did_you_know := "ご存知ですか？"
      try_this := "これを試してみて："
      heres_the_thing := "ポイントは："
      remember := "覚えておいて："
      lets_be_honest := "正直に言うと："
      the_bottom_line := "要するに："
      sound_familiar := "心当たりがありますか？"
      key_takeaway := "重要なポイント："
      think_about_it := "考えてみて："
      the_truth_is := "真実は：" })]

/-- Mirrors line 304: callouts =
callout_translations.get("English", callout_translations["English"]).
The lookup key is the fixed literal "English"; the summary_language of the
instance is in scope but not consulted.  The default of the Python get is
itself the "English" entry, so a missing key would also yield the English
table. -/
def calloutsUsed (summary_language : String) : CalloutTable :=
  match List.lookup "English" callout_translations with
  | some t => t
  | none => englishCallouts

/-- The f-string prompt of generate_headway_style_summary (lines 306-469).
The long fixed instruction blocks are abbreviated to their opening words
(marked ...); every interpolated expression of the f-string appears, in
source order: self.summary_language (9 occurrences), the ten callout
titles plus three further callout references, metadata.title and
metadata.author (twice each), the full content at line 456, and
content[:15000] at line 466 in the duplicated trailing block. -/
def buildPrompt (summary_language : String) (callouts : CalloutTable)
    (metadata : BookMetadata) (content : String) : String :=
  "\nYou are creating a COMPREHENSIVE, LONG, engaging, conversational book summary ... Write the ENTIRE summary in "
  ++ summary_language
  ++ "\n- ALL text including headers, callouts, phrases, and content MUST be in "
  ++ summary_language
  ++ "\n- Use these specific callout titles if necessary in "
  ++ summary_language
  ++ ":\n  * \"" ++ callouts.did_you_know
  ++ "\" (for fascinating facts)\n  * \"" ++ callouts.try_this
  ++ "\" (for actionable steps)\n  * \"" ++ callouts.heres_the_thing
  ++ "\" (for important insights)\n  * \"" ++ callouts.remember
  ++ "\" (for key principles)\n  * \"" ++ callouts.lets_be_honest
  ++ "\" (for relatable truths)\n  * \"" ++ callouts.the_bottom_line
  ++ "\" (for summarizing takeaways)\n  * \"" ++ callouts.sound_familiar
  ++ "\" (for connection with readers)\n  * \"" ++ callouts.key_takeaway
  ++ "\" (for main points)\n  * \"" ++ callouts.think_about_it
  ++ "\" (for reflection prompts)\n  * \"" ++ callouts.the_truth_is
  ++ "\" (for powerful statements)\n\n**GENRE FOCUS: Personal Growth & Self-Help** ... A bold, descriptive, engaging header in "
  ++ summary_language
  ++ " ... At least one \"" ++ callouts.did_you_know
  ++ "\" callout with a surprising psychological fact ... A \"" ++ callouts.try_this
  ++ "\" section with 2-3 specific, actionable steps ... Include comprehensive \"" ++ callouts.try_this
  ++ "\" section with 8-12 concrete action items ... to create personal connection (in "
  ++ summary_language
  ++ ") ... Use bold for section headers and key concepts in "
  ++ summary_language
  ++ " ... make them personal, provocative, and in "
  ++ summary_language
  ++ " ...\n\nBook Title: " ++ metadata.title
  ++ "\nAuthor: " ++ metadata.author
  ++ "\nGenre: Personal Growth & Self-Help\n\nContent:\n" ++ content
  ++ "\n\nNow create an EXTENSIVE, LONG, engaging, conversational summary (10,000-15,000 words) IN "
  ++ summary_language
  ++ " that thoroughly covers all major personal growth concepts from the book. Remember: ALL text including headers, callouts, and phrases must be in "
  ++ summary_language
  ++ ". ...\n\n\nBook Title: " ++ metadata.title
  ++ "\nAuthor: " ++ metadata.author
  ++ "\nGenre: Personal Growth & Self-Help\n\nContent:\n" ++ content.take 15000
  ++ "\n\nNow create your EXTENSIVE, LONG, engaging summary (10,000-15,000 words).\n"

/-- Mirrors generate_headway_style_summary (lines 185-474).  The guard
`not content.strip()` of line 190 holds exactly when every character of
content is whitespace, which is how it is modelled.  The second component
counts the Generation Provider invocations performed by the call (the
chat.completions.create of line 471 happens at most once); the Python
try/except converts a provider exception into the "Error: ..." result
string of line 474. -/
def generate_headway_style_summary (gen : GenOracle) (summary_language : String)
    (metadata : BookMetadata) (content : String) : String × Nat :=
  if content.data.all Char.isWhitespace then
    ("Summary could not be generated - no content available.", 0)
  else
    let callouts := calloutsUsed summary_language
    let prompt := buildPrompt summary_language callouts metadata content
    match gen prompt with
    | Except.ok text => (text, 1)
    | Except.error e => ("Error: " ++ e, 1)

/-- Mirrors the aggregation loop of the UI handler (lines 551-553):
all_content starts empty and each query whose chunk list is non-empty
appends its newline-joined chunks followed by a newline. -/
def aggregate_content (retrieved_docs : Dict) : String :=
  retrieved_docs.foldl
    (fun all_content qd =>
      if qd.2.isEmpty then all_content
      else all_content ++ String.intercalate "\n" qd.2 ++ "\n") ""

/-- The aggregation blob as the spec words it for claim C9: the non-empty
chunk lists only, each newline-joined internally, with the per-query
groups newline-separated from each other (no trailing newline). -/
def aggregate_content_spec (retrieved_docs : Dict) : String :=
  String.intercalate "\n"
    ((retrieved_docs.filter (fun qd => !qd.2.isEmpty)).map
      (fun qd => String.intercalate "\n" qd.2))

/-- needle occurs contiguously inside hay. -/
def strContains (hay needle : String) : Prop :=
  ∃ a b : List Char, hay.data = a ++ needle.data ++ b

/-- Concrete fixture: metadata used by witnesses. -/
def wMeta : BookMetadata :=
  { title := "Atomic Habits", author := "James Clear", filename := "b.pdf" }

/-- Concrete fixture: metadata whose author is not a superstring of the
title, for the C3 counterexample. -/
def cexMeta : BookMetadata :=
  { title := "Atomic Habits", author := "Clear", filename := "b.pdf" }

/-- Concrete fixture: an embedding provider that always succeeds with a
non-empty vector. -/
def wEmbed : EmbedOracle := fun _ => Except.ok [1]

/-- Concrete fixture: an embedding provider whose call always raises. -/
def failEmbed : EmbedOracle := fun _ => Except.error "embedding failed"

/-- Concrete fixture: a search client returning three records, the middle
one lacking the "chunk" field. -/
def wSearch : SearchOracle :=
  fun _ _ _ => Except.ok [{ chunk := some "c1" }, { chunk := none }, { chunk := some "c2" }]

/-- Concrete fixture: a search client whose call always raises. -/
def failSearch : SearchOracle := fun _ _ _ => Except.error "search failed"

/-- Concrete fixture: a generation provider whose call always raises. -/
def failGen : GenOracle := fun _ => Except.error "quota exceeded"

/-- Concrete fixture: a generation provider that always succeeds. -/
def okGen : GenOracle := fun _ => Except.ok "a summary"

/-- Concrete fixture: a content string of 15001 characters, one character
past the 15000-character truncation budget. -/
def longContent : String := String.mk (List.replicate 15001 'a')

/-- Lookup in the empty dict. -/
theorem dictLookup_nil (k : String) : dictLookup [] k = none := rfl

/-- Lookup steps through the head binding. -/
theorem dictLookup_cons (p : String × List String) (t : Dict) (k : String) :
    dictLookup (p :: t) k = if p.1 == k then some p.2 else dictLookup t k := by
  unfold dictLookup
  cases h : p.1 == k <;> simp [List.find?_cons, h]

/-- Keys of a cons. -/
theorem dictKeys_cons (p : String × List String) (t : Dict) :
    dictKeys (p :: t) = p.1 :: dictKeys t := rfl

/-- Keys of an append. -/
theorem dictKeys_append (d₁ d₂ : Dict) :
    dictKeys (d₁ ++ d₂) = dictKeys d₁ ++ dictKeys d₂ := by
  simp [dictKeys]

/-- A key that is absent has no binding. -/
theorem dictLookup_not_mem {d : Dict} {k : String} (h : k ∉ dictKeys d) :
    dictLookup d k = none := by
  induction d with
  | nil => rfl
  | cons p t ih =>
    rw [dictKeys_cons, List.mem_cons] at h
    push_neg at h
    have hb : (p.1 == k) = false := beq_eq_false_iff_ne.mpr fun hh => h.1 hh.symm
    rw [dictLookup_cons, hb, if_neg (by simp), ih h.2]

/-- Inserting a fresh key appends the binding at the end. -/
theorem dictInsert_fresh {d : Dict} {k : String} (v : List String) (h : k ∉ dictKeys d) :
    dictInsert d k v = d ++ [(k, v)] := by
  have hc : (d.any fun p => p.1 == k) = false := by
    rw [List.any_eq_false]
    intro p hp
    simp only [beq_iff_eq]
    intro hpk
    exact h (by simp only [dictKeys, List.mem_map]; exact ⟨p, hp, hpk⟩)
  unfold dictInsert
  rw [hc]
  simp

/-- Looking up the key of a binding appended after a dict not holding it. -/
theorem dictLookup_append_single_self {d : Dict} {k : String} (v : List String)
    (h : k ∉ dictKeys d) : dictLookup (d ++ [(k, v)]) k = some v := by
  have h1 : d.find? (fun p => p.1 == k) = none := by
    have h2 := dictLookup_not_mem h
    unfold dictLookup at h2
    cases hf : d.find? (fun p => p.1 == k) <;> simp [hf] at h2 ⊢
  unfold dictLookup
  rw [List.find?_append, h1]
  simp [List.find?_cons]

/-- Appending a binding of a different key does not change a lookup. -/
theorem dictLookup_append_single_ne {k q : String} (d : Dict) (v : List String)
    (h : q ≠ k) : dictLookup (d ++ [(k, v)]) q = dictLookup d q := by
  have h2 : ([((k : String), v)].find? fun p => p.1 == q) = none := by
    simp [List.find?_cons, beq_eq_false_iff_ne.mpr fun hh : k = q => h hh.symm]
  unfold dictLookup
  rw [List.find?_append, h2]
  cases hf : d.find? (fun p => p.1 == q) <;> simp

/-- The in-place-update branch of dictInsert does not change the lookup of
another key. -/
theorem dictLookup_map_update (d : Dict) {k q : String} (v : List String) (h : q ≠ k) :
    dictLookup (d.map fun p => if p.1 == k then (k, v) else p) q = dictLookup d q := by
  induction d with
  | nil => rfl
  | cons p t ih =>
    by_cases hp : p.1 = k
    · have h1 : (p.1 == k) = true := beq_iff_eq.mpr hp
      have h2 : (k == q) = false := beq_eq_false_iff_ne.mpr fun hh => h hh.symm
      have h3 : (p.1 == q) = false := by rw [hp]; exact h2
      simp only [List.map_cons, h1, if_true]
      rw [dictLookup_cons, dictLookup_cons, h2, h3, if_neg (by simp), if_neg (by simp), ih]
    · have h1 : (p.1 == k) = false := beq_eq_false_iff_ne.mpr hp
      simp only [List.map_cons, h1, Bool.false_eq_true, if_false]
      rw [dictLookup_cons, dictLookup_cons, ih]

/-- dictInsert of one key never changes the lookup of another. -/
theorem dictLookup_insert_ne (d : Dict) {k q : String} (v : List String) (h : q ≠ k) :
    dictLookup (dictInsert d k v) q = dictLookup d q := by
  unfold dictInsert
  split
  · exact dictLookup_map_update d v h
  · exact dictLookup_append_single_ne d v h

/-- retrieveStep when the embedding came back empty: the continue of line
170, nothing is recorded. -/
theorem retrieveStep_empty {e : EmbedOracle} {s : SearchOracle} {top : Nat} {d : Dict}
    {q : String} (h : (generate_embedding e q).isEmpty = true) :
    retrieveStep e s top d q = d := by
  unfold retrieveStep
  simp [h]

/-- retrieveStep on a successful search: the chunk fields present in the
results are recorded. -/
theorem retrieveStep_ok {e : EmbedOracle} {s : SearchOracle} {top : Nat} {d : Dict}
    {q : String} {rs : List SearchRecord} (h : (generate_embedding e q).isEmpty = false)
    (hs : s (generate_embedding e q) 50 top = Except.ok rs) :
    retrieveStep e s top d q = dictInsert d q (rs.filterMap SearchRecord.chunk) := by
  unfold retrieveStep
  simp [h, hs]

/-- retrieveStep on a search exception: the except branch of line 179
records the empty list. -/
theorem retrieveStep_error {e : EmbedOracle} {s : SearchOracle} {top : Nat} {d : Dict}
    {q : String} {msg : String} (h : (generate_embedding e q).isEmpty = false)
    (hs : s (generate_embedding e q) 50 top = Except.error msg) :
    retrieveStep e s top d q = dictInsert d q [] := by
  unfold retrieveStep
  simp [h, hs]

/-- Folding the loop over queries not containing q preserves the binding
of q. -/
theorem retrieve_foldl_preserve (e : EmbedOracle) (s : SearchOracle) (top : Nat) :
    ∀ (qs : List String) (d : Dict) (q : String), q ∉ qs →
    dictLookup (qs.foldl (retrieveStep e s top) d) q = dictLookup d q := by
  intro qs
  induction qs with
  | nil => intro d q _; rfl
  | cons a t ih =>
    intro d q hq
    rw [List.mem_cons] at hq
    push_neg at hq
    rw [List.foldl_cons, ih _ q hq.2]
    cases hemb : (generate_embedding e a).isEmpty with
    | true => rw [retrieveStep_empty hemb]
    | false =>
      cases hs : s (generate_embedding e a) 50 top with
      | ok rs => rw [retrieveStep_ok hemb hs]; exact dictLookup_insert_ne d _ hq.1
      | error msg => rw [retrieveStep_error hemb hs]; exact dictLookup_insert_ne d _ hq.1

/-- A key different from the processed query and absent before the step is
still absent after it. -/
theorem dictKeys_insert_ne {d : Dict} {a q : String} (v : List String) (hq : q ≠ a)
    (hd : q ∉ dictKeys d) : q ∉ dictKeys (dictInsert d a v) := by
  unfold dictInsert
  split
  · intro hmem
    simp only [dictKeys, List.mem_map] at hmem
    obtain ⟨p, ⟨x, hx, hfx⟩, hpq⟩ := hmem
    subst hfx
    by_cases hpk : x.1 = a
    · simp only [hpk, beq_self_eq_true, if_true] at hpq
      exact hq hpq.symm
    · have h1 : (x.1 == a) = false := beq_eq_false_iff_ne.mpr hpk
      simp only [h1, Bool.false_eq_true, if_false] at hpq
      exact hd (by simp only [dictKeys, List.mem_map]; exact ⟨x, hx, hpq⟩)
  · rw [dictKeys_append]
    intro hmem
    rcases List.mem_append.mp hmem with hm | hm
    · exact hd hm
    · simp [dictKeys] at hm
      exact hq hm

/-- Same, through a retrieveStep. -/
theorem dictKeys_step_not_mem {e : EmbedOracle} {s : SearchOracle} {top : Nat} {d : Dict}
    {a q : String} (hq : q ≠ a) (hd : q ∉ dictKeys d) :
    q ∉ dictKeys (retrieveStep e s top d a) := by
  cases hemb : (generate_embedding e a).isEmpty with
  | true => rw [retrieveStep_empty hemb]; exact hd
  | false =>
    cases hs : s (generate_embedding e a) 50 top with
    | ok rs => rw [retrieveStep_ok hemb hs]; exact dictKeys_insert_ne _ hq hd
    | error msg => rw [retrieveStep_error hemb hs]; exact dictKeys_insert_ne _ hq hd

/-- Main lookup lemma: over a duplicate-free query list, the binding a
query ends up with is exactly its individual queryResult. -/
theorem retrieve_lookup_aux (e : EmbedOracle) (s : SearchOracle) (top : Nat) :
    ∀ (qs : List String) (d : Dict) (q : String), qs.Nodup → q ∈ qs → q ∉ dictKeys d →
    dictLookup (qs.foldl (retrieveStep e s top) d) q = queryResult e s top q := by
  intro qs
  induction qs with
  | nil => intro d q _ hq _; exact absurd hq (List.not_mem_nil q)
  | cons a t ih =>
    intro d q hnd hq hk
    obtain ⟨hat, hnt⟩ := List.nodup_cons.mp hnd
    rw [List.foldl_cons]
    rcases List.mem_cons.mp hq with rfl | hmem
    · rw [retrieve_foldl_preserve e s top t _ q hat]
      cases hemb : (generate_embedding e q).isEmpty with
      | true =>
        rw [retrieveStep_empty hemb, dictLookup_not_mem hk]
        unfold queryResult
        simp [hemb]
      | false =>
        cases hs : s (generate_embedding e q) 50 top with
        | ok rs =>
          rw [retrieveStep_ok hemb hs, dictInsert_fresh _ hk,
            dictLookup_append_single_self _ hk]
          unfold queryResult
          simp [hemb, hs]
        | error msg =>
          rw [retrieveStep_error hemb hs, dictInsert_fresh _ hk,
            dictLookup_append_single_self _ hk]
          unfold queryResult
          simp [hemb, hs]
    · have hqa : q ≠ a := fun hh => hat (hh ▸ hmem)
      exact ih _ q hnt hmem (dictKeys_step_not_mem hqa hk)

/-- Main keys lemma: over a duplicate-free query list whose elements are
fresh for the accumulated dict, the final keys are the old keys followed
by exactly the queries whose embedding came back non-empty. -/
theorem retrieve_keys_aux (e : EmbedOracle) (s : SearchOracle) (top : Nat) :
    ∀ (qs : List String) (d : Dict), qs.Nodup → (∀ x ∈ qs, x ∉ dictKeys d) →
    dictKeys (qs.foldl (retrieveStep e s top) d)
      = dictKeys d ++ qs.filter (fun q => !(generate_embedding e q).isEmpty) := by
  intro qs
  induction qs with
  | nil => intro d _ _; simp
  | cons a t ih =>
    intro d hnd hfr
    obtain ⟨hat, hnt⟩ := List.nodup_cons.mp hnd
    rw [List.foldl_cons, List.filter_cons]
    cases hemb : (generate_embedding e a).isEmpty with
    | true =>
      rw [retrieveStep_empty hemb]
      rw [ih d hnt fun x hx => hfr x (List.mem_cons_of_mem a hx)]
      simp [hemb]
    | false =>
      have hfresh : a ∉ dictKeys d := hfr a (List.mem_cons_self a t)
      have hstep : ∃ v, retrieveStep e s top d a = d ++ [(a, v)] := by
        cases hs : s (generate_embedding e a) 50 top with
        | ok rs =>
          exact ⟨rs.filterMap SearchRecord.chunk,
            by rw [retrieveStep_ok hemb hs, dictInsert_fresh _ hfresh]⟩
        | error msg =>
          exact ⟨[], by rw [retrieveStep_error hemb hs, dictInsert_fresh _ hfresh]⟩
      obtain ⟨v, hv⟩ := hstep
      rw [hv]
      rw [ih (d ++ [(a, v)]) hnt ?_]
      · rw [dictKeys_append]
        simp [dictKeys, hemb, List.append_assoc]
      · intro x hx
        rw [dictKeys_append, List.mem_append]
        push_neg
        refine ⟨hfr x (List.mem_cons_of_mem a hx), ?_⟩
        simp only [dictKeys, List.map_cons, List.map_nil, List.mem_singleton]
        exact fun hh => hat (hh ▸ hx)

/-- C1 counterexample: with one query whose embedding call raises, the
claim says the mapping has exactly one key, bound to the empty list; the
code skips the query entirely, returning the empty mapping with no key at
all.  (failEmbed raises on every call, so generate_embedding returns the
empty vector and line 170 continues past the query.) -/
theorem retrieve_documents_drops_failed_query_cex :
    failEmbed "q1" = Except.error "embedding failed"
    ∧ retrieve_documents failEmbed wSearch ["q1"] 100 = []
    ∧ dictLookup (retrieve_documents failEmbed wSearch ["q1"] 100) "q1" = none := by
  refine ⟨rfl, by decide, by decide⟩

/-- C1 amended: for a duplicate-free query list, the keys of the mapping
returned by retrieve_documents are exactly (in order) the queries whose
embedding call returned a non-empty vector; queries whose embedding failed
or came back empty are omitted entirely rather than recorded with empty
lists, so the mapping has exactly N keys only when every embedding
succeeds. -/
theorem retrieve_documents_keys_amended (e : EmbedOracle) (s : SearchOracle)
    (top : Nat) (queries : List String) (h : queries.Nodup) :
    dictKeys (retrieve_documents e s queries top)
      = queries.filter (fun q => !(generate_embedding e q).isEmpty) := by
  have h2 := retrieve_keys_aux e s top queries [] h (by intro x _; simp [dictKeys])
  simpa [retrieve_documents] using h2

/-- Witness for retrieve_documents_keys_amended at a concrete two-query
input with an always-succeeding embedder. -/
theorem retrieve_documents_keys_amended_witness :
    dictKeys (retrieve_documents wEmbed wSearch ["a", "b"] 100) = ["a", "b"] :=
  (retrieve_documents_keys_amended wEmbed wSearch 100 ["a", "b"] (by decide)).trans
    (by decide)

/-- C4 counterexample: an exception in the embedding step does not record
the empty list for the query as the claim states; it records nothing (the
exception is caught inside generate_embedding, the empty vector triggers
the continue of line 170, and the query gets no entry). -/
theorem retrieve_documents_embed_exception_cex :
    failEmbed "q2" = Except.error "embedding failed"
    ∧ dictLookup (retrieve_documents failEmbed wSearch ["q2"] 100) "q2" = none
    ∧ ¬ dictLookup (retrieve_documents failEmbed wSearch ["q2"] 100) "q2"
        = some ([] : List String) := by
  refine ⟨rfl, by decide, by decide⟩

/-- C4 amended: retrieve_documents propagates no exception (it is a total
function of its oracles); an exception raised in the search step of a
query records the empty list for that query and the remaining queries are
still processed, while an exception in the embedding step is caught inside
generate_embedding and leads to the query being skipped with no entry. -/
theorem retrieve_documents_search_error_amended (e : EmbedOracle) (s : SearchOracle)
    (top : Nat) (queries : List String) (q msg : String)
    (hn : queries.Nodup) (hq : q ∈ queries)
    (hemb : (generate_embedding e q).isEmpty = false)
    (hs : s (generate_embedding e q) 50 top = Except.error msg) :
    dictLookup (retrieve_documents e s queries top) q = some [] := by
  have h2 := retrieve_lookup_aux e s top queries [] q hn hq (by simp [dictKeys])
  rw [retrieve_documents, h2]
  unfold queryResult
  simp [hemb, hs]

/-- Witness for retrieve_documents_search_error_amended: a search client
that always raises, surrounded by successfully processed queries. -/
theorem retrieve_documents_search_error_amended_witness :
    dictLookup (retrieve_documents wEmbed failSearch ["a", "b"] 100) "a" = some [] :=
  retrieve_documents_search_error_amended wEmbed failSearch 100 ["a", "b"] "a"
    "search failed" (by decide) (by decide) (by decide) rfl

/-- C8 confirmed: a query whose embedding is non-empty and whose search
call succeeds is bound in the result mapping to exactly the "chunk" fields
of the records that carry one (records lacking the field are dropped),
where the search was issued with k_nearest_neighbors = 50 and result cap
equal to the max_docs_per_query parameter; the parameter defaults to 100. -/
theorem retrieve_documents_chunks_confirmed (e : EmbedOracle) (s : SearchOracle)
    (top : Nat) (queries : List String) (q : String) (rs : List SearchRecord)
    (hn : queries.Nodup) (hq : q ∈ queries)
    (hemb : (generate_embedding e q).isEmpty = false)
    (hs : s (generate_embedding e q) 50 top = Except.ok rs) :
    dictLookup (retrieve_documents e s queries top) q
      = some (rs.filterMap SearchRecord.chunk)
    ∧ retrieve_documents_default e s queries = retrieve_documents e s queries 100 := by
  refine ⟨?_, rfl⟩
  have h2 := retrieve_lookup_aux e s top queries [] q hn hq (by simp [dictKeys])
  rw [retrieve_documents, h2]
  unfold queryResult
  simp [hemb, hs]

/-- Witness for retrieve_documents_chunks_confirmed: three records, the
middle one lacking the "chunk" field, yield exactly the two present
chunks. -/
theorem retrieve_documents_chunks_confirmed_witness :
    dictLookup (retrieve_documents wEmbed wSearch ["a"] 100) "a" = some ["c1", "c2"]
    ∧ retrieve_documents_default wEmbed wSearch ["a"]
        = retrieve_documents wEmbed wSearch ["a"] 100 := by
  have h := retrieve_documents_chunks_confirmed wEmbed wSearch 100 ["a"] "a"
    [{ chunk := some "c1" }, { chunk := none }, { chunk := some "c2" }]
    (by decide) (by decide) (by decide) rfl
  exact ⟨h.1.trans (by decide), h.2⟩

/-- Every string contains itself. -/
theorem strContains_self (s : String) : strContains s s := ⟨[], [], by simp⟩

/-- Containment survives appending on the right. -/
theorem strContains_left {a t : String} (b : String) (h : strContains a t) :
    strContains (a ++ b) t := by
  obtain ⟨x, y, hx⟩ := h
  exact ⟨x, y ++ b.data, by rw [String.data_append, hx]; simp [List.append_assoc]⟩

/-- Containment survives appending on the left. -/
theorem strContains_right {b t : String} (a : String) (h : strContains b t) :
    strContains (a ++ b) t := by
  obtain ⟨x, y, hx⟩ := h
  exact ⟨a.data ++ x, y, by rw [String.data_append, hx]; simp [List.append_assoc]⟩

/-- A contained string is no longer than its container. -/
theorem strContains_length {hay needle : String} (h : strContains hay needle) :
    needle.length ≤ hay.length := by
  obtain ⟨a, b, hx⟩ := h
  have h2 : hay.data.length = a.length + (needle.data.length + b.length) := by
    rw [hx]; simp [List.length_append]
  show needle.data.length ≤ hay.data.length
  omega

/-- C3 counterexample: the bare author query f-string of line 154 need not
contain the title; with title "Atomic Habits" and author "Clear", the
returned query "Clear" does not contain the title as a substring. -/
theorem generate_retrieval_queries_author_query_cex :
    cexMeta.title = "Atomic Habits"
    ∧ "Clear" ∈ generate_retrieval_queries cexMeta
    ∧ ¬ strContains "Clear" "Atomic Habits" := by
  refine ⟨rfl, by decide, fun h => absurd (strContains_length h) (by decide)⟩

/-- C3 amended: for every metadata input, generate_retrieval_queries
returns no duplicate strings, and every returned string contains the title
or the author as a substring (the lone author query of line 154 is the
only one that can lack the title). -/
theorem generate_retrieval_queries_amended (m : BookMetadata) :
    (generate_retrieval_queries m).Nodup
    ∧ ∀ q ∈ generate_retrieval_queries m,
        strContains q m.title ∨ strContains q m.author := by
  constructor
  · exact List.nodup_dedup _
  · intro q hq
    unfold generate_retrieval_queries at hq
    rw [List.mem_dedup] at hq
    simp only [List.mem_cons, List.not_mem_nil, or_false] at hq
    rcases hq with rfl | rfl | rfl | rfl | rfl | rfl | rfl | rfl | rfl | rfl
    · exact Or.inl (strContains_self _)
    · exact Or.inl (strContains_left _ (strContains_self _))
    · exact Or.inl (strContains_left _ (strContains_self _))
    · exact Or.inl (strContains_left _ (strContains_self _))
    · exact Or.inr (strContains_self _)
    · exact Or.inl (strContains_right _ (strContains_self _))
    · exact Or.inl (strContains_right _ (strContains_self _))
    · exact Or.inl (strContains_right _ (strContains_self _))
    · exact Or.inl (strContains_right _ (strContains_self _))
    · exact Or.inl (strContains_right _ (strContains_self _))

/-- Witness for generate_retrieval_queries_amended at concrete metadata. -/
theorem generate_retrieval_queries_amended_witness :
    (generate_retrieval_queries wMeta).Nodup
    ∧ ∀ q ∈ generate_retrieval_queries wMeta,
        strContains q wMeta.title ∨ strContains q wMeta.author :=
  generate_retrieval_queries_amended wMeta

/-- Folding string concatenation from an accumulator prepends it to the
join of the list. -/
theorem strJoin_foldl : ∀ (l : List String) (acc : String),
    l.foldl (fun r s => r ++ s) acc = acc ++ String.join l := by
  intro l
  induction l with
  | nil => intro acc; simp [String.join, String.append_empty]
  | cons a t ih =>
    intro acc
    have h2 : String.join (a :: t) = a ++ String.join t := by
      have h0 : String.join (a :: t) = t.foldl (fun r s => r ++ s) ("" ++ a) := rfl
      rw [h0, ih, String.empty_append]
    rw [List.foldl_cons, ih, h2, String.append_assoc]

/-- String.join distributes over cons. -/
theorem strJoin_cons (a : String) (l : List String) :
    String.join (a :: l) = a ++ String.join l := by
  have h0 : String.join (a :: l) = l.foldl (fun r s => r ++ s) ("" ++ a) := rfl
  rw [h0, strJoin_foldl, String.empty_append]

/-- The aggregation loop from any accumulator appends the joined groups of
the non-empty chunk lists. -/
theorem aggregate_foldl_aux : ∀ (l : Dict) (acc : String),
    l.foldl (fun all_content qd =>
      if qd.2.isEmpty then all_content
      else all_content ++ String.intercalate "\n" qd.2 ++ "\n") acc
      = acc ++ String.join ((l.filter (fun qd => !qd.2.isEmpty)).map
          (fun qd => String.intercalate "\n" qd.2 ++ "\n")) := by
  intro l
  induction l with
  | nil => intro acc; simp [String.join, String.append_empty]
  | cons p t ih =>
    intro acc
    rw [List.foldl_cons, List.filter_cons]
    cases hp : p.2.isEmpty with
    | true =>
      simp only [hp, if_true, Bool.not_true, Bool.false_eq_true, if_false]
      exact ih acc
    | false =>
      simp only [hp, Bool.false_eq_true, if_false, Bool.not_false, if_true, List.map_cons]
      rw [ih, strJoin_cons]
      simp [String.append_assoc]

/-- C9 counterexample: for a single query with one chunk, the code yields
the newline-terminated blob "a\n" while the claimed newline-separated
concatenation is "a"; the code leaves a trailing newline after every
group. -/
theorem aggregate_content_trailing_newline_cex :
    aggregate_content [("q", ["a"])] = "a\n"
    ∧ aggregate_content_spec [("q", ["a"])] = "a"
    ∧ aggregate_content [("q", ["a"])] ≠ aggregate_content_spec [("q", ["a"])] := by
  refine ⟨by decide, by decide, by decide⟩

/-- C9 amended: the aggregated blob is the concatenation over queries of
the non-empty chunk lists only, each newline-joined internally, with every
per-query group terminated by a newline (so groups are newline-separated
and the blob carries a trailing newline); empty chunk lists contribute
nothing. -/
theorem aggregate_content_amended (retrieved_docs : Dict) :
    aggregate_content retrieved_docs
      = String.join ((retrieved_docs.filter (fun qd => !qd.2.isEmpty)).map
          (fun qd => String.intercalate "\n" qd.2 ++ "\n")) := by
  unfold aggregate_content
  rw [aggregate_foldl_aux, String.empty_append]

/-- The events of one query always start with its embedding call. -/
theorem retrieveEventsFor_head (e : EmbedOracle) (s : SearchOracle) (top : Nat)
    (q : String) :
    ∃ t, retrieveEventsFor e s top q = RetrievalEvent.embedCall q :: t := by
  cases hemb : (generate_embedding e q).isEmpty with
  | true => exact ⟨[], by simp [retrieveEventsFor, hemb]⟩
  | false =>
    cases hs : s (generate_embedding e q) 50 top with
    | ok rs =>
      exact ⟨[RetrievalEvent.searchCall q, RetrievalEvent.sleepCall],
        by simp [retrieveEventsFor, hemb, hs]⟩
    | error msg =>
      exact ⟨[RetrievalEvent.searchCall q], by simp [retrieveEventsFor, hemb, hs]⟩

/-- The trace fold from any accumulator prepends it. -/
theorem retrieveTrace_foldl (e : EmbedOracle) (s : SearchOracle) (top : Nat) :
    ∀ (qs : List String) (acc : List RetrievalEvent),
    qs.foldl (fun a q => a ++ retrieveEventsFor e s top q) acc
      = acc ++ qs.foldl (fun a q => a ++ retrieveEventsFor e s top q) [] := by
  intro qs
  induction qs with
  | nil => intro acc; simp
  | cons a t ih =>
    intro acc
    rw [List.foldl_cons, List.foldl_cons, ih, ih ([] ++ retrieveEventsFor e s top a)]
    simp

/-- The trace of a non-empty query list decomposes as the first query's
events followed by the trace of the rest. -/
theorem retrieveTrace_cons (e : EmbedOracle) (s : SearchOracle) (top : Nat)
    (q : String) (qs : List String) :
    retrieveTrace e s top (q :: qs)
      = retrieveEventsFor e s top q ++ retrieveTrace e s top qs := by
  unfold retrieveTrace
  rw [List.foldl_cons, retrieveTrace_foldl]
  simp

/-- C10 counterexample: a query whose search raises is processed — the
except branch of lines 179-180 records the empty list for it and the loop
proceeds — yet the sleep of line 178 sits inside the try after the dict
assignment, so no pacing delay follows it: with a raising search client,
query "a" is recorded (bound to []) but the trace of ["a", "b"] goes
straight from the search call of "a" to the embedding call of "b" with no
sleep event anywhere, refuting "each processed query is followed by the
fixed delay before the next query begins". -/
theorem retrieve_pacing_no_sleep_after_exception_cex :
    dictLookup (retrieve_documents wEmbed failSearch ["a", "b"] 100) "a" = some []
    ∧ retrieveTrace wEmbed failSearch 100 ["a", "b"]
        = [RetrievalEvent.embedCall "a", RetrievalEvent.searchCall "a",
           RetrievalEvent.embedCall "b", RetrievalEvent.searchCall "b"]
    ∧ RetrievalEvent.sleepCall ∉ retrieveEventsFor wEmbed failSearch 100 "a" := by
  refine ⟨by decide, by decide, by decide⟩

/-- C10 amended: the pacing delay of line 178 never occurs before the
first query's embedding call (the trace of a non-empty input starts with
that call), the trace decomposes query by query, and within a query's
block the delay comes last, after its embedding and search calls, but it
is inserted only after queries whose search succeeds: a query skipped for
an empty embedding emits only its embedding call and a query whose search
raises emits only its embedding and search calls, with no delay before
the next query begins. -/
theorem retrieve_pacing_amended (e : EmbedOracle) (s : SearchOracle) (top : Nat)
    (q : String) (qs : List String) :
    (retrieveTrace e s top (q :: qs)).head? = some (RetrievalEvent.embedCall q)
    ∧ retrieveTrace e s top (q :: qs)
        = retrieveEventsFor e s top q ++ retrieveTrace e s top qs
    ∧ (∀ q2, (generate_embedding e q2).isEmpty = true →
        retrieveEventsFor e s top q2 = [RetrievalEvent.embedCall q2])
    ∧ (∀ q2 msg, (generate_embedding e q2).isEmpty = false →
        s (generate_embedding e q2) 50 top = Except.error msg →
        retrieveEventsFor e s top q2
          = [RetrievalEvent.embedCall q2, RetrievalEvent.searchCall q2])
    ∧ (∀ q2 rs, (generate_embedding e q2).isEmpty = false →
        s (generate_embedding e q2) 50 top = Except.ok rs →
        retrieveEventsFor e s top q2
          = [RetrievalEvent.embedCall q2, RetrievalEvent.searchCall q2,
              RetrievalEvent.sleepCall]) := by
  refine ⟨?_, retrieveTrace_cons e s top q qs, ?_, ?_, ?_⟩
  · obtain ⟨t, ht⟩ := retrieveEventsFor_head e s top q
    rw [retrieveTrace_cons, ht]
    rfl
  · intro q2 hemb
    simp [retrieveEventsFor, hemb]
  · intro q2 msg hemb hs
    simp [retrieveEventsFor, hemb, hs]
  · intro q2 rs hemb hs
    simp [retrieveEventsFor, hemb, hs]

/-- Witness for retrieve_pacing_amended at a concrete two-query input. -/
theorem retrieve_pacing_amended_witness :
    (retrieveTrace wEmbed wSearch 100 ("a" :: ["b"])).head?
        = some (RetrievalEvent.embedCall "a")
    ∧ retrieveTrace wEmbed wSearch 100 ("a" :: ["b"])
        = retrieveEventsFor wEmbed wSearch 100 "a" ++ retrieveTrace wEmbed wSearch 100 ["b"]
    ∧ (∀ q2, (generate_embedding wEmbed q2).isEmpty = true →
        retrieveEventsFor wEmbed wSearch 100 q2 = [RetrievalEvent.embedCall q2])
    ∧ (∀ q2 msg, (generate_embedding wEmbed q2).isEmpty = false →
        wSearch (generate_embedding wEmbed q2) 50 100 = Except.error msg →
        retrieveEventsFor wEmbed wSearch 100 q2
          = [RetrievalEvent.embedCall q2, RetrievalEvent.searchCall q2])
    ∧ (∀ q2 rs, (generate_embedding wEmbed q2).isEmpty = false →
        wSearch (generate_embedding wEmbed q2) 50 100 = Except.ok rs →
        retrieveEventsFor wEmbed wSearch 100 q2
          = [RetrievalEvent.embedCall q2, RetrievalEvent.searchCall q2,
              RetrievalEvent.sleepCall]) :=
  retrieve_pacing_amended wEmbed wSearch 100 "a" ["b"]

/-- C5 confirmed: content that is empty or whitespace-only short-circuits
at line 190: the fixed "no content" string is returned and the Generation
Provider is invoked zero times. -/
theorem empty_content_short_circuit (gen : GenOracle) (summary_language : String)
    (metadata : BookMetadata) (content : String)
    (h : content.data.all Char.isWhitespace = true) :
    generate_headway_style_summary gen summary_language metadata content
      = ("Summary could not be generated - no content available.", 0) := by
  unfold generate_headway_style_summary
  simp [h]

/-- Witness for empty_content_short_circuit on whitespace-only content,
with a generation oracle that would fail if it were ever consulted. -/
theorem empty_content_short_circuit_witness :
    generate_headway_style_summary failGen "Spanish" wMeta "  \n"
      = ("Summary could not be generated - no content available.", 0) :=
  empty_content_short_circuit failGen "Spanish" wMeta "  \n" (by decide)

/-- C6 confirmed: when the Generation Provider call raises, the except
branch of line 473 returns "Error: " followed by the failure description
through the normal string result channel (the model is a total function,
so no fault propagates), and the result therefore starts with the
"Error:" marker. -/
theorem generation_failure_error_string (gen : GenOracle) (summary_language : String)
    (metadata : BookMetadata) (content : String) (msg : String)
    (h1 : content.data.all Char.isWhitespace = false)
    (h2 : gen (buildPrompt summary_language (calloutsUsed summary_language) metadata content)
        = Except.error msg) :
    (generate_headway_style_summary gen summary_language metadata content).1
        = "Error: " ++ msg
    ∧ ∃ desc, (generate_headway_style_summary gen summary_language metadata content).1
        = "Error:" ++ desc := by
  have hmain : (generate_headway_style_summary gen summary_language metadata content).1
      = "Error: " ++ msg := by
    unfold generate_headway_style_summary
    simp [h1, h2]
  refine ⟨hmain, " " ++ msg, ?_⟩
  rw [hmain, show ("Error: " : String) = "Error:" ++ " " from rfl, String.append_assoc]

/-- Witness for generation_failure_error_string with an always-failing
generation provider. -/
theorem generation_failure_error_string_witness :
    (generate_headway_style_summary failGen "English" wMeta "some content").1
        = "Error: " ++ "quota exceeded"
    ∧ ∃ desc, (generate_headway_style_summary failGen "English" wMeta "some content").1
        = "Error:" ++ desc :=
  generation_failure_error_string failGen "English" wMeta "some content" "quota exceeded"
    (by decide) rfl

set_option maxRecDepth 8192 in
/-- C7 confirmed: line 304 looks the callout table up with the fixed key
"English" and never consults self.summary_language, so for every selected
summary language the callouts substituted into the prompt are the English
ones, and in particular the English title "Did you know?" appears verbatim
in the prompt of a run in any language. -/
theorem callout_titles_always_english (summary_language : String)
    (metadata : BookMetadata) (content : String) :
    calloutsUsed summary_language = englishCallouts
    ∧ (calloutsUsed summary_language).did_you_know = "Did you know?"
    ∧ strContains
        (buildPrompt summary_language (calloutsUsed summary_language) metadata content)
        "Did you know?" := by
  refine ⟨rfl, rfl, ?_⟩
  unfold buildPrompt
  iterate 27 apply strContains_left
  exact strContains_right _ (strContains_self _)

set_option maxRecDepth 8192 in
/-- The assembled prompt contains the full, untruncated content string
(interpolated at line 456); only the duplicated trailing block of line 466
interpolates content[:15000]. -/
theorem buildPrompt_contains_content (summary_language : String)
    (callouts : CalloutTable) (metadata : BookMetadata) (content : String) :
    strContains (buildPrompt summary_language callouts metadata content) content := by
  unfold buildPrompt
  iterate 11 apply strContains_left
  exact strContains_right _ (strContains_self _)

/-- C2: the code interpolates the full content into the prompt at line
456, so for a 15001-character content the prompt contains all 15001
characters contiguously — content in excess of the 15,000-character
budget does reach the Generation Provider, contradicting the claimed
hard truncation invariant (only the second, duplicated Content block of
line 466 is truncated). -/
theorem prompt_embeds_untruncated_content_bug :
    15000 < longContent.length
    ∧ strContains
        (buildPrompt "English" (calloutsUsed "English") wMeta longContent)
        longContent := by
  constructor
  · show 15000 < (List.replicate 15001 'a').length
    rw [List.length_replicate]
    omega
  · exact buildPrompt_contains_content "English" (calloutsUsed "English") wMeta longContent
